import Mathlib

/-!
A shallow embedding of `aerialviewgenerator/aerialview/__init__.py`
(class `AerialView`), together with proofs about the embedded functions.

Real-valued Python math (`math.tan`, `math.cos`, `math.asinh`, ...) is
embedded over `ℝ`; Python `int()` truncation toward zero is `truncInt`;
Python `range`/`itertools.product` become `intRange`/`tilesProduct` over `ℤ`.
The HTTP/file side of `_get_tile` is embedded as a function of an abstract
per-attempt outcome oracle, and the `as_completed` loop of `getAerialImage`
as a fold over an arbitrary completion-ordered list of future results.
-/

namespace AerialView

/-- Earth radius constant `R = 6378137` from the class body. -/
def R : ℝ := 6378137

/-- `C = 2*math.pi*R`, the equatorial circumference of the Earth. -/
noncomputable def C : ℝ := 2 * Real.pi * R

/-- `self.tile_size = 256` set in `__init__`. -/
def tile_size : ℕ := 256

/-- Python `math.radians`. -/
noncomputable def radians (d : ℝ) : ℝ := d * Real.pi / 180

/-- Python `math.degrees`. -/
noncomputable def degrees (r : ℝ) : ℝ := r * 180 / Real.pi

/-- `squareAtCamera(altitude, fov) = 2*altitude*math.tan(math.radians(fov/2))`. -/
noncomputable def squareAtCamera (altitude fov : ℝ) : ℝ :=
  2 * altitude * Real.tan (radians (fov / 2))

/-- `squareAtZoomlevel(lat, z) = AerialView.C*math.cos(math.radians(lat))/2**z`. -/
noncomputable def squareAtZoomlevel (lat : ℝ) (z : ℕ) : ℝ :=
  C * Real.cos (radians lat) / 2 ^ z

/-- `pixelAtZoomlevel(lat, z, tile_size) = squareAtZoomlevel(lat, z)/tile_size`. -/
noncomputable def pixelAtZoomlevel (lat : ℝ) (z : ℕ) (ts : ℕ) : ℝ :=
  (C * Real.cos (radians lat) / 2 ^ z) / ts

/-- `_deg2num(lat_deg, lon_deg, zoom)`: fractional slippy-map tile coordinates.
`xtile = (lon+180)/360 * n`, `ytile = (1 - asinh(tan(lat_rad))/pi)/2 * n`
with `n = 2.0**zoom`. -/
noncomputable def deg2num (lat_deg lon_deg : ℝ) (zoom : ℕ) : ℝ × ℝ :=
  ((lon_deg + 180) / 360 * (2 : ℝ) ^ zoom,
   (1 - Real.arsinh (Real.tan (radians lat_deg)) / Real.pi) / 2 * (2 : ℝ) ^ zoom)

/-- `_num2deg(xtile, ytile, zoom)`: inverse conversion.
`lon = xtile/n*360 - 180`, `lat = degrees(atan(sinh(pi*(1 - 2*ytile/n))))`. -/
noncomputable def num2deg (xtile ytile : ℝ) (zoom : ℕ) : ℝ × ℝ :=
  (degrees (Real.arctan (Real.sinh (Real.pi * (1 - 2 * ytile / (2 : ℝ) ^ zoom)))),
   xtile / (2 : ℝ) ^ zoom * 360 - 180)

/-- Python `int()` applied to a float: truncation toward zero. -/
noncomputable def truncInt (x : ℝ) : ℤ := if 0 ≤ x then ⌊x⌋ else ⌈x⌉

/-- The `extra_tiles` computation in `getAerialImage`:
`extra_tiles = math.ceil((math.ceil(ratio)-1)/2)` with
`ratio = smin/szoom`, `smin = scamera*sqrt(2)`, followed by
`extra_tiles = extra_tiles if extra_tiles > 5 else 5`. -/
noncomputable def extra_tiles (lat altitude fov : ℝ) (zoom : ℕ) : ℤ :=
  let scamera := squareAtCamera altitude fov
  let smin := scamera * Real.sqrt 2
  let szoom := squareAtZoomlevel lat zoom
  let ratio := smin / szoom
  let e : ℤ := ⌈(((⌈ratio⌉ : ℤ) : ℝ) - 1) / 2⌉
  if 5 < e then e else 5

/-- Python `range(a, b)` over `ℤ`: the integers `a, a+1, ..., b-1`. -/
def intRange (a b : ℤ) : List ℤ :=
  List.map (fun i : ℕ => a + (i : ℤ)) (List.range (b - a).toNat)

/-- `itertools.product(range(xmin, xmax), range(ymin, ymax))`: all pairs,
first coordinate outermost, exactly as the `tiles` tuple in `getAerialImage`. -/
def tilesProduct (xmin xmax ymin ymax : ℤ) : List (ℤ × ℤ) :=
  (intRange xmin xmax).flatMap (fun x => (intRange ymin ymax).map (fun y => (x, y)))

/-- The pure pre-fetch phase of `getAerialImage`: the margin, the tile-index
bounds, the enumerated tile list and the `bbox` tuple.  In the source,
`xmin = int(xtile) - extra_tiles` etc. are already integers, so the
`math.floor`/`math.ceil` applied to them in `tiles` and `bbox` are the
identity and the embedding uses the integers directly. -/
structure Plan where
  extra : ℤ
  xmin : ℤ
  ymin : ℤ
  xmax : ℤ
  ymax : ℤ
  tiles : List (ℤ × ℤ)
  bbox : ℤ × ℤ × ℤ × ℤ
  deriving Repr, DecidableEq

/-- Lines 32-71 of `getAerialImage`: compute `extra_tiles`, the fractional
center tile via `_deg2num`, the integer bounds `xmin/ymin/xmax/ymax`, the
`tiles` tuple and the `bbox` tuple.  The function is total: the source
performs no validation of `lat`, `lon`, `altitude` or `fov` before reaching
the fetch loop. -/
noncomputable def getAerialImagePlan (lat lon altitude fov : ℝ) (zoom : ℕ) : Plan :=
  let extra := extra_tiles lat altitude fov zoom
  let xtile := (deg2num lat lon zoom).1
  let ytile := (deg2num lat lon zoom).2
  let xmin := truncInt xtile - extra
  let ymin := truncInt ytile - extra
  let xmax := truncInt xtile + extra
  let ymax := truncInt ytile + extra
  { extra := extra, xmin := xmin, ymin := ymin, xmax := xmax, ymax := ymax,
    tiles := tilesProduct xmin xmax ymin ymax,
    bbox := (xmin, ymin, xmax, ymax) }

/-- The cache-key derivation in `_get_tile` (line 131):
`"".join([c for c in url if c.isalpha() or c.isdigit() or c==' ']).rstrip()`.
Only letters, digits and spaces survive the comprehension, so the final
`rstrip()` (which strips all trailing whitespace) only ever removes spaces. -/
def url2filename (url : List Char) : List Char :=
  (((url.filter (fun c => c.isAlpha || c.isDigit || c = ' ')).reverse.dropWhile
      (fun c => c = ' ')).reverse)

/-- `os.path.join(a, b)` for the two-argument case used at line 132:
concatenation, inserting a separator unless `a` is empty or ends in one. -/
def pathJoin (a b : List Char) : List Char :=
  if a = [] ∨ a.getLast? = some '/' then a ++ b else a ++ '/' :: b

/-- `tile_path = path.join(self.cache_dir, url2filename + ".png")` (line 132). -/
def tile_path (cache_dir url : List Char) : List Char :=
  pathJoin cache_dir (url2filename url ++ String.toList ".png")

/-- A decoded raster, abstracted to its byte payload: `Image.open(BytesIO(b))`
is embedded as `Image.mk b`. -/
structure Image where
  data : List ℕ
  deriving Repr, DecidableEq

/-- An HTTP response as `_get_tile` inspects it: `status_code` and `content`. -/
structure Response where
  status_code : ℕ
  content : List ℕ
  deriving Repr, DecidableEq

/-- Outcome of one `self.session.get(url, timeout=self.http_timeout)` call:
either a transport-level exception or a response. -/
inductive Attempt where
  | exn
  | resp (r : Response)
  deriving Repr, DecidableEq

/-- The exceptions `_get_tile` can raise: the re-raised transport exception
after the retry budget is consumed, the `ValueError` raised for a 404 status
or empty body, and the `requests.HTTPError` from `raise_for_status()` on any
other 4xx/5xx status. -/
inductive TileError where
  | transportFailure
  | valueError (url : List Char)
  | httpStatus (status : ℕ)
  deriving Repr, DecidableEq

/-- The retry loop of `_get_tile` (lines 136-144): `retry = self.max_retries`,
then repeatedly try `session.get`; on an exception, `retry -= 1` and raise
once `retry` reaches 0.  `attempt k` is the outcome of the `k`-th network
call (0-based); the result pairs the final response (`none` when the loop
re-raises) with the number of network calls performed.  The source would
loop forever when `max_retries = 0` (the counter jumps to `-1`, which is
truthy); the embedding is only used with `1 ≤ retry`, matching the
constructor default `max_retries=3`. -/
def fetchLoop (attempt : ℕ → Attempt) (retry k : ℕ) : Option Response × ℕ :=
  match attempt k, retry with
  | .resp r, _ => (some r, k + 1)
  | .exn, 0 => (none, k + 1)
  | .exn, 1 => (none, k + 1)
  | .exn, r + 2 => fetchLoop attempt (r + 1) (k + 1)

/-- Lines 146-154 of `_get_tile`, applied to the retry loop's outcome:
re-raise the transport exception when the loop exhausted its budget
(`None`); raise `ValueError` on `status_code == 404` or an empty body;
`res.raise_for_status()` raises `requests.HTTPError` on any other 4xx/5xx
status; otherwise decode and return the body. -/
def handleResponse (url : List Char) : Option Response × ℕ → Except TileError Image × ℕ
  | (none, k) => (.error .transportFailure, k)
  | (some r, k) =>
    if r.status_code = 404 ∨ r.content = [] then
      (.error (.valueError url), k)
    else if 400 ≤ r.status_code ∧ r.status_code < 600 then
      (.error (.httpStatus r.status_code), k)
    else
      (.ok (Image.mk r.content), k)

/-- `_get_tile` (lines 129-154): return the cached image when the cache file
exists (no network call); otherwise run the retry loop and hand its outcome
to `handleResponse`.  `cached` is the decoded cache file when
`path.exists(tile_path)`; the result pairs the outcome with the number of
network calls performed.  (The `img.save` of a freshly fetched tile is a
side effect the claims do not touch.) -/
def get_tile (cached : Option Image) (attempt : ℕ → Attempt)
    (max_retries : ℕ) (url : List Char) : Except TileError Image × ℕ :=
  match cached with
  | some img => (.ok img, 0)
  | none => handleResponse url (fetchLoop attempt max_retries 0)

/-- A concrete attempt oracle: the first three network calls raise a
transport exception, every later one returns HTTP 200 with a body. -/
def attemptsThenOk : ℕ → Attempt := fun k =>
  if k < 3 then .exn else .resp { status_code := 200, content := [1] }

/-- The partially assembled canvas, abstracted to the list of
`(tile index, image)` pairs pasted so far, in paste order. -/
abbrev Canvas := List ((ℤ × ℤ) × Image)

/-- `_paste_tile(full_img, base_size, img, xy, bbox)` (lines 157-174),
abstracted to record keeping: a `None` image leaves the canvas unchanged
(this branch is unreachable from `getAerialImage`, since `_get_tile` raises
instead of returning `None`); otherwise the tile is pasted (allocating the
canvas on first paste). -/
def paste_tile (full_img : Option Canvas) (img : Option Image)
    (xy : ℤ × ℤ) : Option Canvas :=
  match img with
  | none => full_img
  | some im => some ((full_img.getD []) ++ [(xy, im)])

/-- The pixel offset at which `_paste_tile` pastes tile `xy`:
`dx = abs(xy[0] - bbox[0])`, `dy = abs(xy[1] - bbox[1])`,
`xy0 = (size[0]*dx, size[1]*dy)` with `size = (tile_size, tile_size)`. -/
def paste_offset (size : ℕ) (xy : ℤ × ℤ) (bbox : ℤ × ℤ × ℤ × ℤ) : ℤ × ℤ :=
  ((size : ℤ) * |xy.1 - bbox.1|, (size : ℤ) * |xy.2 - bbox.2.1|)

/-- The fan-in loop of `getAerialImage` (lines 74-78):
`for future in as_completed(futures): res, idx = future.result(); ...`.
`results` is the list of `(outcome, idx)` pairs in completion order (which
`as_completed` leaves unconstrained); `future.result()` re-raises the
exception of a failed fetch, which aborts the loop — there is no handler. -/
def compositeLoop (tiles : List (ℤ × ℤ)) :
    List (Except TileError Image × ℕ) → Option Canvas →
      Except TileError (Option Canvas)
  | [], full_img => .ok full_img
  | (res, idx) :: rest, full_img =>
    match res with
    | .error e => .error e
    | .ok img => compositeLoop tiles rest (paste_tile full_img (some img) (tiles.getD idx (0, 0)))

/-- Whether two axis-aligned `size × size` squares anchored at the given
offsets occupy disjoint pixel sets. -/
def regionDisjoint (size : ℕ) (o₁ o₂ : ℤ × ℤ) : Prop :=
  o₁.1 + size ≤ o₂.1 ∨ o₂.1 + size ≤ o₁.1 ∨ o₁.2 + size ≤ o₂.2 ∨ o₂.2 + size ≤ o₁.2

/-! ### Helper lemmas -/

theorem mem_intRange {a b n : ℤ} : n ∈ intRange a b ↔ a ≤ n ∧ n < b := by
  simp only [intRange, List.mem_map, List.mem_range]
  constructor
  · rintro ⟨i, hi, rfl⟩
    omega
  · rintro ⟨h₁, h₂⟩
    exact ⟨(n - a).toNat, by omega, by omega⟩

theorem length_intRange (a b : ℤ) : (intRange a b).length = (b - a).toNat := by
  simp [intRange]

theorem mem_tilesProduct {xmin xmax ymin ymax : ℤ} {p : ℤ × ℤ} :
    p ∈ tilesProduct xmin xmax ymin ymax ↔
      (xmin ≤ p.1 ∧ p.1 < xmax) ∧ (ymin ≤ p.2 ∧ p.2 < ymax) := by
  obtain ⟨px, py⟩ := p
  simp only [tilesProduct, List.mem_flatMap, List.mem_map, Prod.mk.injEq]
  constructor
  · rintro ⟨x, hx, y, hy, rfl, rfl⟩
    exact ⟨mem_intRange.mp hx, mem_intRange.mp hy⟩
  · rintro ⟨hx, hy⟩
    exact ⟨px, mem_intRange.mpr hx, py, mem_intRange.mpr hy, rfl, rfl⟩

theorem length_tilesProduct (xmin xmax ymin ymax : ℤ) :
    (tilesProduct xmin xmax ymin ymax).length =
      (xmax - xmin).toNat * (ymax - ymin).toNat := by
  simp only [tilesProduct]
  rw [List.length_flatMap]
  have h : ∀ x : ℤ, ((intRange ymin ymax).map (fun y => (x, y))).length
      = (ymax - ymin).toNat := by
    intro x
    simp [length_intRange]
  calc ((intRange xmin xmax).map
          (fun x => ((intRange ymin ymax).map (fun y => (x, y))).length)).sum
      = ((intRange xmin xmax).map (fun _ => (ymax - ymin).toNat)).sum := by
        simp only [h]
    _ = (intRange xmin xmax).length * (ymax - ymin).toNat := by
        rw [List.map_const', List.sum_replicate, smul_eq_mul]
    _ = (xmax - xmin).toNat * (ymax - ymin).toNat := by rw [length_intRange]

theorem getAerialImagePlan_eq (lat lon altitude fov : ℝ) (zoom : ℕ) :
    getAerialImagePlan lat lon altitude fov zoom =
      { extra := extra_tiles lat altitude fov zoom,
        xmin := truncInt (deg2num lat lon zoom).1 - extra_tiles lat altitude fov zoom,
        ymin := truncInt (deg2num lat lon zoom).2 - extra_tiles lat altitude fov zoom,
        xmax := truncInt (deg2num lat lon zoom).1 + extra_tiles lat altitude fov zoom,
        ymax := truncInt (deg2num lat lon zoom).2 + extra_tiles lat altitude fov zoom,
        tiles := tilesProduct
          (truncInt (deg2num lat lon zoom).1 - extra_tiles lat altitude fov zoom)
          (truncInt (deg2num lat lon zoom).1 + extra_tiles lat altitude fov zoom)
          (truncInt (deg2num lat lon zoom).2 - extra_tiles lat altitude fov zoom)
          (truncInt (deg2num lat lon zoom).2 + extra_tiles lat altitude fov zoom),
        bbox := (truncInt (deg2num lat lon zoom).1 - extra_tiles lat altitude fov zoom,
                 truncInt (deg2num lat lon zoom).2 - extra_tiles lat altitude fov zoom,
                 truncInt (deg2num lat lon zoom).1 + extra_tiles lat altitude fov zoom,
                 truncInt (deg2num lat lon zoom).2 + extra_tiles lat altitude fov zoom) } := rfl

theorem fetchLoop_resp {attempt : ℕ → Attempt} {k : ℕ} {r : Response}
    (h : attempt k = .resp r) (retry : ℕ) :
    fetchLoop attempt retry k = (some r, k + 1) := by
  rw [fetchLoop.eq_def, h]

theorem fetchLoop_exn_last {attempt : ℕ → Attempt} {k : ℕ}
    (h : attempt k = .exn) :
    fetchLoop attempt 1 k = (none, k + 1) := by
  rw [fetchLoop.eq_def, h]

theorem fetchLoop_exn_step {attempt : ℕ → Attempt} {k m : ℕ}
    (h : attempt k = .exn) :
    fetchLoop attempt (m + 2) k = fetchLoop attempt (m + 1) (k + 1) := by
  rw [fetchLoop.eq_def, h]

theorem fetchLoop_success (attempt : ℕ → Attempt) (r : Response) :
    ∀ (j m k : ℕ), j < m → (∀ i, i < j → attempt (k + i) = .exn) →
      attempt (k + j) = .resp r →
      fetchLoop attempt m k = (some r, k + j + 1) := by
  intro j
  induction j with
  | zero =>
    intro m k _ _ hsucc
    rw [fetchLoop_resp (by simpa using hsucc) m]
  | succ j ih =>
    intro m k hjm hfail hsucc
    have h0 : attempt k = .exn := by simpa using hfail 0 (Nat.succ_pos j)
    match m, hjm with
    | m + 2, _ =>
      rw [fetchLoop_exn_step h0]
      have hrec := ih (m + 1) (k + 1) (by omega)
        (fun i hi => by
          have := hfail (i + 1) (by omega)
          simpa [Nat.add_assoc, Nat.add_comm 1 i] using this)
        (by
          have he : k + 1 + j = k + (j + 1) := by omega
          rw [he]
          exact hsucc)
      rw [hrec]
      congr 1
      omega

theorem fetchLoop_allFail (attempt : ℕ → Attempt) :
    ∀ (m k : ℕ), 1 ≤ m → (∀ i, i < m → attempt (k + i) = .exn) →
      fetchLoop attempt m k = (none, k + m) := by
  intro m
  induction m with
  | zero => omega
  | succ m ih =>
    intro k _ hfail
    have h0 : attempt k = .exn := by simpa using hfail 0 (Nat.succ_pos m)
    match m with
    | 0 => rw [fetchLoop_exn_last h0]
    | m + 1 =>
      rw [fetchLoop_exn_step h0]
      have hrec := ih (k + 1) (by omega)
        (fun i hi => by
          have := hfail (i + 1) (by omega)
          simpa [Nat.add_assoc, Nat.add_comm 1 i] using this)
      rw [hrec]
      congr 1
      omega

theorem C_pos : 0 < C := by
  unfold C R
  positivity

theorem radians_zero : radians 0 = 0 := by simp [radians]

theorem radians_45 : radians 45 = Real.pi / 4 := by unfold radians; ring

theorem truncInt_zero : truncInt 0 = 0 := by simp [truncInt]

theorem truncInt_one : truncInt 1 = 1 := by simp [truncInt]

theorem truncInt_half : truncInt (1 / 2) = 0 := by
  rw [truncInt, if_pos (by norm_num : (0:ℝ) ≤ 1 / 2), Int.floor_eq_zero_iff]
  constructor <;> norm_num

theorem deg2num_x (lon : ℝ) (zoom : ℕ) :
    (deg2num 0 lon zoom).1 = (lon + 180) / 360 * 2 ^ zoom := rfl

theorem deg2num_y0 (lon : ℝ) (zoom : ℕ) :
    (deg2num 0 lon zoom).2 = 2 ^ zoom / 2 := by
  have h : (deg2num 0 lon zoom).2
      = (1 - Real.arsinh (Real.tan (radians 0)) / Real.pi) / 2 * (2 : ℝ) ^ zoom := rfl
  rw [h, radians_zero, Real.tan_zero, Real.arsinh_zero]
  ring

theorem sqrt_two_le_two : Real.sqrt 2 ≤ 2 := by
  nlinarith [Real.sq_sqrt (by norm_num : (0:ℝ) ≤ 2), Real.sqrt_nonneg 2]

theorem ratio_eval1 :
    squareAtCamera 1 90 * Real.sqrt 2 / squareAtZoomlevel 0 1 = 4 * Real.sqrt 2 / C := by
  unfold squareAtCamera squareAtZoomlevel
  rw [radians_zero, Real.cos_zero]
  rw [show (90:ℝ)/2 = 45 by norm_num, radians_45, Real.tan_pi_div_four]
  have hC : C ≠ 0 := ne_of_gt C_pos
  field_simp
  ring

theorem ceil_ratio1 : ⌈4 * Real.sqrt 2 / C⌉ = 1 := by
  have h1 : (0:ℝ) < 4 * Real.sqrt 2 := by positivity
  have h8 : (8:ℝ) ≤ C := by
    unfold C R
    nlinarith [Real.pi_gt_three]
  rw [Int.ceil_eq_iff]
  constructor
  · push_cast
    linarith [div_pos h1 C_pos]
  · push_cast
    rw [div_le_one C_pos]
    nlinarith [sqrt_two_le_two, h8]

theorem extra_tiles_eval1 : extra_tiles 0 1 90 1 = 5 := by
  simp only [extra_tiles]
  rw [ratio_eval1, ceil_ratio1]
  norm_num

theorem ratio_eval0 :
    squareAtCamera 0 90 * Real.sqrt 2 / squareAtZoomlevel 0 1 = 0 := by
  unfold squareAtCamera
  norm_num

theorem extra_tiles_eval0 : extra_tiles 0 0 90 1 = 5 := by
  simp only [extra_tiles]
  rw [ratio_eval0]
  rw [show ⌈(0:ℝ)⌉ = 0 from Int.ceil_zero]
  rw [show ((((0:ℤ) : ℝ)) - 1) / 2 = -(1/2) by norm_num]
  rw [show ⌈(-(1/2) : ℝ)⌉ = 0 by rw [Int.ceil_eq_iff]; constructor <;> norm_num]
  norm_num

theorem planA_eval : getAerialImagePlan 0 (-180) 1 90 1 =
    { extra := 5, xmin := -5, ymin := -4, xmax := 5, ymax := 6,
      tiles := tilesProduct (-5) 5 (-4) 6, bbox := (-5, -4, 5, 6) } := by
  have hx : (deg2num 0 (-180) 1).1 = 0 := by rw [deg2num_x]; norm_num
  have hy : (deg2num 0 (-180) 1).2 = 1 := by rw [deg2num_y0]; norm_num
  rw [getAerialImagePlan_eq, hx, hy, extra_tiles_eval1, truncInt_zero, truncInt_one]
  norm_num

theorem planB_eval : getAerialImagePlan 0 (-90) 1 90 1 =
    { extra := 5, xmin := -5, ymin := -4, xmax := 5, ymax := 6,
      tiles := tilesProduct (-5) 5 (-4) 6, bbox := (-5, -4, 5, 6) } := by
  have hx : (deg2num 0 (-90) 1).1 = 1 / 2 := by rw [deg2num_x]; norm_num
  have hy : (deg2num 0 (-90) 1).2 = 1 := by rw [deg2num_y0]; norm_num
  rw [getAerialImagePlan_eq, hx, hy, extra_tiles_eval1, truncInt_half, truncInt_one]
  norm_num

theorem planC_eval : getAerialImagePlan 0 (-180) 0 90 1 =
    { extra := 5, xmin := -5, ymin := -4, xmax := 5, ymax := 6,
      tiles := tilesProduct (-5) 5 (-4) 6, bbox := (-5, -4, 5, 6) } := by
  have hx : (deg2num 0 (-180) 1).1 = 0 := by rw [deg2num_x]; norm_num
  have hy : (deg2num 0 (-180) 1).2 = 1 := by rw [deg2num_y0]; norm_num
  rw [getAerialImagePlan_eq, hx, hy, extra_tiles_eval0, truncInt_zero, truncInt_one]
  norm_num

theorem five_le_extra_tiles (lat altitude fov : ℝ) (zoom : ℕ) :
    5 ≤ extra_tiles lat altitude fov zoom := by
  simp only [extra_tiles]
  split
  · omega
  · omega

theorem plan_tiles_length (lat lon altitude fov : ℝ) (zoom : ℕ) :
    (getAerialImagePlan lat lon altitude fov zoom).tiles.length =
      (2 * extra_tiles lat altitude fov zoom).toNat ^ 2 := by
  show (tilesProduct _ _ _ _).length = _
  rw [length_tilesProduct]
  have h1 : truncInt (deg2num lat lon zoom).1 + extra_tiles lat altitude fov zoom
      - (truncInt (deg2num lat lon zoom).1 - extra_tiles lat altitude fov zoom)
      = 2 * extra_tiles lat altitude fov zoom := by ring
  have h2 : truncInt (deg2num lat lon zoom).2 + extra_tiles lat altitude fov zoom
      - (truncInt (deg2num lat lon zoom).2 - extra_tiles lat altitude fov zoom)
      = 2 * extra_tiles lat altitude fov zoom := by ring
  rw [h1, h2, sq]

/-! ### Claim theorems -/

/-- Claim C7: for every altitude, field of view, latitude and zoom level, the
computed `extra_tiles` margin is at least 5, even when the raw formula
`ceil((ceil(ratio)-1)/2)` yields a smaller value. -/
theorem C7_extra_tiles_min_five (lat altitude fov : ℝ) (zoom : ℕ) :
    5 ≤ extra_tiles lat altitude fov zoom :=
  five_le_extra_tiles lat altitude fov zoom

/-- Claim C8: for every latitude and every zoom level,
`squareAtZoomlevel(lat, z+1)` equals `squareAtZoomlevel(lat, z) / 2`
exactly. -/
theorem C8_squareAtZoomlevel_halving (lat : ℝ) (z : ℕ) :
    squareAtZoomlevel lat (z + 1) = squareAtZoomlevel lat z / 2 := by
  unfold squareAtZoomlevel
  rw [pow_succ]
  ring

/-- Claim C9: converting degrees to fractional tile coordinates with
`_deg2num` and back with `_num2deg` returns the original `(lat, lon)`
exactly, over real arithmetic, for every `(lat, lon)` with `|lat| < 85`
degrees and every zoom level. -/
theorem C9_deg2num_num2deg_roundtrip (lat lon : ℝ) (zoom : ℕ)
    (h1 : -85 < lat) (h2 : lat < 85) :
    num2deg (deg2num lat lon zoom).1 (deg2num lat lon zoom).2 zoom = (lat, lon) := by
  have hn : ((2:ℝ) ^ zoom) ≠ 0 := by positivity
  have hπ : Real.pi ≠ 0 := Real.pi_ne_zero
  have hπ0 : 0 < Real.pi := Real.pi_pos
  have hx : (deg2num lat lon zoom).1 = (lon + 180) / 360 * (2:ℝ) ^ zoom := rfl
  have hy : (deg2num lat lon zoom).2
      = (1 - Real.arsinh (Real.tan (radians lat)) / Real.pi) / 2 * (2 : ℝ) ^ zoom := rfl
  rw [hx, hy]
  unfold num2deg degrees
  rw [Prod.mk.injEq]
  constructor
  · have key : Real.pi * (1 - 2 * ((1 - Real.arsinh (Real.tan (radians lat)) / Real.pi) / 2 * (2:ℝ) ^ zoom) / (2:ℝ) ^ zoom)
        = Real.arsinh (Real.tan (radians lat)) := by
      field_simp
      ring
    rw [key, Real.sinh_arsinh, Real.arctan_tan]
    · unfold radians
      field_simp
    · unfold radians
      nlinarith
    · unfold radians
      nlinarith
  · field_simp
    ring

/-- Witness for C9 at `lat = 0`, `lon = 0`, `zoom = 0`. -/
theorem C9_roundtrip_witness :
    num2deg (deg2num 0 0 0).1 (deg2num 0 0 0).2 0 = (0, 0) :=
  C9_deg2num_num2deg_roundtrip 0 0 0 (by norm_num) (by norm_num)

/-- Counterexample to claim C3, at `lat = 0`, `lon = -90`, `altitude = 1`,
`fov = 90`, `zoom = 1` (so `xtile = 1/2`, `ytile = 1`, `extra_tiles = 5`):
the computed bounding box uses `int(xtile) + extra` (truncation), not
`ceil(xtile) + extra`, so it differs from the claimed box, and the tile
with `x = xmax` is not fetched even though the claim's inclusive
enumeration requires it. -/
theorem C3_counterexample :
    (getAerialImagePlan 0 (-90) 1 90 1).bbox ≠
      (⌊(deg2num 0 (-90) 1).1⌋ - extra_tiles 0 1 90 1,
       ⌊(deg2num 0 (-90) 1).2⌋ - extra_tiles 0 1 90 1,
       ⌈(deg2num 0 (-90) 1).1⌉ + extra_tiles 0 1 90 1,
       ⌈(deg2num 0 (-90) 1).2⌉ + extra_tiles 0 1 90 1) ∧
    ((5 : ℤ), (0 : ℤ)) ∉ (getAerialImagePlan 0 (-90) 1 90 1).tiles := by
  have hx : (deg2num 0 (-90) 1).1 = 1 / 2 := by rw [deg2num_x]; norm_num
  have hy : (deg2num 0 (-90) 1).2 = 1 := by rw [deg2num_y0]; norm_num
  constructor
  · rw [planB_eval, extra_tiles_eval1, hx, hy]
    rw [show ⌊(1/2 : ℝ)⌋ = 0 by rw [Int.floor_eq_zero_iff]; constructor <;> norm_num]
    rw [show ⌈(1/2 : ℝ)⌉ = 1 by rw [Int.ceil_eq_iff]; constructor <;> norm_num]
    rw [Int.floor_one, Int.ceil_one]
    decide
  · rw [planB_eval]
    decide

/-- Claim C3 (amended): the computed tile bounding box equals
`[int(xtile)-extraTiles, int(ytile)-extraTiles, int(xtile)+extraTiles,
int(ytile)+extraTiles]` where `int` truncates toward zero (Python `int()`,
equal to `floor` for the nonnegative tile range), and the fetched tiles are
exactly the integral pairs `(x, y)` with `xmin ≤ x < xmax` and
`ymin ≤ y < ymax` — the maximum corner is excluded. -/
theorem C3_bbox_truncation_exclusive (lat lon altitude fov : ℝ) (zoom : ℕ) :
    (getAerialImagePlan lat lon altitude fov zoom).bbox =
      (truncInt (deg2num lat lon zoom).1 - extra_tiles lat altitude fov zoom,
       truncInt (deg2num lat lon zoom).2 - extra_tiles lat altitude fov zoom,
       truncInt (deg2num lat lon zoom).1 + extra_tiles lat altitude fov zoom,
       truncInt (deg2num lat lon zoom).2 + extra_tiles lat altitude fov zoom) ∧
    ∀ p : ℤ × ℤ,
      p ∈ (getAerialImagePlan lat lon altitude fov zoom).tiles ↔
        ((truncInt (deg2num lat lon zoom).1 - extra_tiles lat altitude fov zoom ≤ p.1 ∧
          p.1 < truncInt (deg2num lat lon zoom).1 + extra_tiles lat altitude fov zoom) ∧
         (truncInt (deg2num lat lon zoom).2 - extra_tiles lat altitude fov zoom ≤ p.2 ∧
          p.2 < truncInt (deg2num lat lon zoom).2 + extra_tiles lat altitude fov zoom)) := by
  refine ⟨rfl, fun p => ?_⟩
  exact mem_tilesProduct

/-- Witness for the amended C3 at `lat = 0`, `lon = -90`, `altitude = 1`,
`fov = 90`, `zoom = 1`: the tile `(-5, -4)` satisfies the exclusive-range
characterization and is enumerated. -/
theorem C3_bbox_truncation_witness :
    ((-5, -4) : ℤ × ℤ) ∈ (getAerialImagePlan 0 (-90) 1 90 1).tiles := by
  have hx : (deg2num 0 (-90) 1).1 = 1 / 2 := by rw [deg2num_x]; norm_num
  have hy : (deg2num 0 (-90) 1).2 = 1 := by rw [deg2num_y0]; norm_num
  refine ((C3_bbox_truncation_exclusive 0 (-90) 1 90 1).2 (-5, -4)).mpr ?_
  rw [hx, hy, truncInt_half, truncInt_one, extra_tiles_eval1]
  refine ⟨⟨by norm_num, by norm_num⟩, by norm_num, by norm_num⟩

/-- Counterexample to claim C5: a request with `altitude = 0` (a malformed,
non-positive altitude) is not rejected — `getAerialImage` computes a full
100-tile fetch plan for it, so tile fetches (network/disk I/O) are
attempted; no `InvalidGeometryError` (or any validation) exists in the
code. -/
theorem C5_counterexample :
    (getAerialImagePlan 0 (-180) 0 90 1).tiles.length = 100 ∧
    (getAerialImagePlan 0 (-180) 0 90 1).tiles ≠ [] := by
  rw [planC_eval]
  constructor
  · decide
  · decide

/-- Claim C5 (amended): `getAerialImage` performs no validation of its
parameters; a request with a malformed (non-positive) altitude still
produces a nonempty tile fetch plan, so tile fetches are attempted rather
than the request being rejected before I/O. -/
theorem C5_no_validation (lat lon altitude fov : ℝ) (zoom : ℕ)
    (h : altitude ≤ 0) :
    (getAerialImagePlan lat lon altitude fov zoom).tiles ≠ [] := by
  have he := five_le_extra_tiles lat altitude fov zoom
  have hl := plan_tiles_length lat lon altitude fov zoom
  intro hnil
  rw [hnil] at hl
  simp only [List.length_nil] at hl
  have h0 : (2 * extra_tiles lat altitude fov zoom).toNat = 0 := by
    have h2 : (2 : ℕ) ≠ 0 := by norm_num
    exact (pow_eq_zero_iff h2).mp hl.symm
  omega

/-- Witness for the amended C5 at `lat = 0`, `lon = -180`, `altitude = 0`,
`fov = 90`, `zoom = 1`. -/
theorem C5_no_validation_witness :
    (getAerialImagePlan 0 (-180) 0 90 1).tiles ≠ [] :=
  C5_no_validation 0 (-180) 0 90 1 le_rfl

/-- Claim C6 counterexample: a URL containing a space keeps that space in
the derived cache key, so characters other than letters and digits do
survive the stripping. -/
theorem C6_counterexample :
    url2filename (String.toList "http://a.b/1 2.png") = String.toList "httpab1 2png" ∧
    ' ' ∈ url2filename (String.toList "http://a.b/1 2.png") := by
  constructor
  · decide
  · decide

/-- Claim C6 (amended): the cache key is derived by stripping all characters
from the URL except letters, digits and spaces, and then removing trailing
whitespace; the cache file path is the key with a `.png` extension joined
to the cache directory. -/
theorem C6_cache_key_keeps_spaces (url cache_dir : List Char) :
    (∀ c ∈ url2filename url, c.isAlpha = true ∨ c.isDigit = true ∨ c = ' ') ∧
    (url2filename url).getLast? ≠ some ' ' ∧
    tile_path cache_dir url = pathJoin cache_dir (url2filename url ++ String.toList ".png") := by
  refine ⟨?_, ?_, rfl⟩
  · intro c hc
    unfold url2filename at hc
    rw [List.mem_reverse] at hc
    have hc2 := (List.dropWhile_sublist _).mem hc
    rw [List.mem_reverse] at hc2
    have hb := (List.mem_filter.mp hc2).2
    simp only [Bool.or_eq_true, decide_eq_true_eq] at hb
    tauto
  · unfold url2filename
    rw [List.getLast?_reverse]
    intro h
    have h2 := List.head?_dropWhile_not (fun c : Char => c = ' ')
      ((url.filter (fun c => c.isAlpha || c.isDigit || c = ' ')).reverse)
    rw [h] at h2
    simp at h2

/-- Witness for the amended C6 on a concrete URL and cache directory: the
letter `h` of the derived key is within the surviving character classes,
and the tile path is the joined key with the `.png` extension. -/
theorem C6_cache_key_witness :
    ('h'.isAlpha = true ∨ 'h'.isDigit = true ∨ 'h' = ' ') ∧
    tile_path (String.toList "cache/") (String.toList "http://a.b/1.png")
      = pathJoin (String.toList "cache/")
          (url2filename (String.toList "http://a.b/1.png") ++ String.toList ".png") :=
  ⟨(C6_cache_key_keeps_spaces (String.toList "http://a.b/1.png")
      (String.toList "cache/")).1 'h' (by decide),
   (C6_cache_key_keeps_spaces (String.toList "http://a.b/1.png")
      (String.toList "cache/")).2.2⟩

theorem grid_paste_props (e t1 t2 : ℤ) :
    (∀ p ∈ tilesProduct (t1 - e) (t1 + e) (t2 - e) (t2 + e),
       0 ≤ (paste_offset tile_size p (t1 - e, t2 - e, t1 + e, t2 + e)).1 ∧
       (paste_offset tile_size p (t1 - e, t2 - e, t1 + e, t2 + e)).1 + tile_size
         ≤ tile_size * (t1 + e - (t1 - e)) ∧
       0 ≤ (paste_offset tile_size p (t1 - e, t2 - e, t1 + e, t2 + e)).2 ∧
       (paste_offset tile_size p (t1 - e, t2 - e, t1 + e, t2 + e)).2 + tile_size
         ≤ tile_size * (t2 + e - (t2 - e))) ∧
    (∀ p ∈ tilesProduct (t1 - e) (t1 + e) (t2 - e) (t2 + e),
     ∀ q ∈ tilesProduct (t1 - e) (t1 + e) (t2 - e) (t2 + e), p ≠ q →
       regionDisjoint tile_size
         (paste_offset tile_size p (t1 - e, t2 - e, t1 + e, t2 + e))
         (paste_offset tile_size q (t1 - e, t2 - e, t1 + e, t2 + e))) := by
  constructor
  · rintro ⟨px, py⟩ hp
    rw [mem_tilesProduct] at hp
    obtain ⟨⟨hx1, hx2⟩, hy1, hy2⟩ := hp
    have hax : |px - (t1 - e)| = px - (t1 - e) := abs_of_nonneg (by omega)
    have hay : |py - (t2 - e)| = py - (t2 - e) := abs_of_nonneg (by omega)
    simp only [paste_offset, tile_size, hax, hay]
    omega
  · rintro ⟨px, py⟩ hp ⟨qx, qy⟩ hq hne
    rw [mem_tilesProduct] at hp
    rw [mem_tilesProduct] at hq
    obtain ⟨⟨hpx1, hpx2⟩, hpy1, hpy2⟩ := hp
    obtain ⟨⟨hqx1, hqx2⟩, hqy1, hqy2⟩ := hq
    have hne2 : px ≠ qx ∨ py ≠ qy := by
      by_contra hcon
      push_neg at hcon
      exact hne (by rw [hcon.1, hcon.2])
    have hap : |px - (t1 - e)| = px - (t1 - e) := abs_of_nonneg (by omega)
    have haq : |qx - (t1 - e)| = qx - (t1 - e) := abs_of_nonneg (by omega)
    have hbp : |py - (t2 - e)| = py - (t2 - e) := abs_of_nonneg (by omega)
    have hbq : |qy - (t2 - e)| = qy - (t2 - e) := abs_of_nonneg (by omega)
    simp only [regionDisjoint, paste_offset, tile_size, hap, haq, hbp, hbq]
    omega

/-- Claim C10: the tiles enumerated for fetching form a square grid of
exactly `2*extra_tiles` tiles per axis (so `(2*extra_tiles)^2` in total and,
with the minimum margin of 5, at least 100 tiles per request), and each
enumerated tile's paste offset places its tile-sized region entirely inside
the allocated canvas, disjoint from every other tile's region. -/
theorem C10_square_grid_disjoint_paste (lat lon altitude fov : ℝ) (zoom : ℕ)
    (P : Plan) (hP : P = getAerialImagePlan lat lon altitude fov zoom) :
    (P.xmax - P.xmin = 2 * P.extra ∧
     P.ymax - P.ymin = 2 * P.extra ∧
     P.tiles.length = (2 * P.extra).toNat ^ 2 ∧
     100 ≤ P.tiles.length) ∧
    (∀ p ∈ P.tiles,
       0 ≤ (paste_offset tile_size p P.bbox).1 ∧
       (paste_offset tile_size p P.bbox).1 + tile_size ≤ tile_size * (P.xmax - P.xmin) ∧
       0 ≤ (paste_offset tile_size p P.bbox).2 ∧
       (paste_offset tile_size p P.bbox).2 + tile_size ≤ tile_size * (P.ymax - P.ymin)) ∧
    (∀ p ∈ P.tiles, ∀ q ∈ P.tiles, p ≠ q →
       regionDisjoint tile_size (paste_offset tile_size p P.bbox)
         (paste_offset tile_size q P.bbox)) := by
  subst hP
  have he := five_le_extra_tiles lat altitude fov zoom
  refine ⟨⟨?_, ?_, plan_tiles_length lat lon altitude fov zoom, ?_⟩, ?_, ?_⟩
  · show truncInt (deg2num lat lon zoom).1 + extra_tiles lat altitude fov zoom
      - (truncInt (deg2num lat lon zoom).1 - extra_tiles lat altitude fov zoom)
      = 2 * extra_tiles lat altitude fov zoom
    ring
  · show truncInt (deg2num lat lon zoom).2 + extra_tiles lat altitude fov zoom
      - (truncInt (deg2num lat lon zoom).2 - extra_tiles lat altitude fov zoom)
      = 2 * extra_tiles lat altitude fov zoom
    ring
  · rw [plan_tiles_length lat lon altitude fov zoom, sq]
    have h10 : 10 ≤ (2 * extra_tiles lat altitude fov zoom).toNat := by omega
    calc (100 : ℕ) = 10 * 10 := by norm_num
      _ ≤ _ := Nat.mul_le_mul h10 h10
  · exact (grid_paste_props (extra_tiles lat altitude fov zoom)
      (truncInt (deg2num lat lon zoom).1) (truncInt (deg2num lat lon zoom).2)).1
  · exact (grid_paste_props (extra_tiles lat altitude fov zoom)
      (truncInt (deg2num lat lon zoom).1) (truncInt (deg2num lat lon zoom).2)).2

/-- Witness for C10 at `lat = 0`, `lon = -180`, `altitude = 1`, `fov = 90`,
`zoom = 1`: two concrete adjacent tiles of that request's grid have
disjoint paste regions. -/
theorem C10_witness :
    ((-5, -4) : ℤ × ℤ) ∈ (getAerialImagePlan 0 (-180) 1 90 1).tiles ∧
    ((-4, -4) : ℤ × ℤ) ∈ (getAerialImagePlan 0 (-180) 1 90 1).tiles ∧
    regionDisjoint tile_size
      (paste_offset tile_size (-5, -4) (getAerialImagePlan 0 (-180) 1 90 1).bbox)
      (paste_offset tile_size (-4, -4) (getAerialImagePlan 0 (-180) 1 90 1).bbox) := by
  have hm1 : ((-5, -4) : ℤ × ℤ) ∈ (getAerialImagePlan 0 (-180) 1 90 1).tiles := by
    rw [planA_eval]
    decide
  have hm2 : ((-4, -4) : ℤ × ℤ) ∈ (getAerialImagePlan 0 (-180) 1 90 1).tiles := by
    rw [planA_eval]
    decide
  refine ⟨hm1, hm2, ?_⟩
  exact (C10_square_grid_disjoint_paste 0 (-180) 1 90 1 _ rfl).2.2
    (-5, -4) hm1 (-4, -4) hm2 (by decide)

/-- Counterexample to claim C4: with `max_retries = 3` and an attempt oracle
whose first three network calls fail with a transport error but whose fourth
call would succeed, `_get_tile` propagates the transport failure after only
3 attempts (2 retries after the first attempt) — it never makes the
claimed `maxRetries` retries after the first attempt, which would have
reached the succeeding fourth call. -/
theorem C4_counterexample :
    get_tile none attemptsThenOk 3 (String.toList "u") =
      (Except.error TileError.transportFailure, 3) ∧
    attemptsThenOk 3 = Attempt.resp { status_code := 200, content := [1] } := by
  constructor
  · rfl
  · rfl

/-- Claim C4 (amended): for a URL whose tile is cached, `_get_tile` makes no
network request; for an uncached tile it issues HTTP GETs and, on
transport-level failure, retries up to `maxRetries - 1` times after the
first attempt (so `maxRetries` total attempts), propagating the transport
failure only after all `maxRetries` attempts fail; a response received on
attempt `j` (0-based) stops the loop after exactly `j + 1` requests. -/
theorem C4_cache_hit_and_retry_budget (img : Image) (attempt : ℕ → Attempt)
    (m : ℕ) (url : List Char) (hm : 1 ≤ m) :
    get_tile (some img) attempt m url = (Except.ok img, 0) ∧
    ((∀ i, i < m → attempt i = .exn) →
      get_tile none attempt m url = (Except.error TileError.transportFailure, m)) ∧
    (∀ j r, j < m → (∀ i, i < j → attempt i = .exn) → attempt j = .resp r →
      (get_tile none attempt m url).2 = j + 1) := by
  refine ⟨rfl, ?_, ?_⟩
  · intro hfail
    have hall := fetchLoop_allFail attempt m 0 hm (fun i hi => by simpa using hfail i hi)
    show handleResponse url (fetchLoop attempt m 0) = (Except.error TileError.transportFailure, m)
    rw [hall]
    show (Except.error TileError.transportFailure, 0 + m)
      = ((Except.error TileError.transportFailure : Except TileError Image), m)
    rw [Nat.zero_add]
  · intro j r hjm hfail hsucc
    have hs := fetchLoop_success attempt r j m 0 hjm
      (fun i hi => by simpa using hfail i hi) (by simpa using hsucc)
    show (handleResponse url (fetchLoop attempt m 0)).2 = j + 1
    rw [hs]
    simp only [handleResponse]
    split_ifs <;> simp

/-- Witness for the amended C4 with `max_retries = 3` and an oracle whose
calls all fail: the cached branch makes no request and the uncached branch
raises after exactly 3 requests. -/
theorem C4_cache_hit_and_retry_budget_witness :
    get_tile (some { data := [9] }) (fun _ => Attempt.exn) 3 (String.toList "u")
      = (Except.ok { data := [9] }, 0) ∧
    get_tile none (fun _ => Attempt.exn) 3 (String.toList "u")
      = (Except.error TileError.transportFailure, 3) := by
  have h := C4_cache_hit_and_retry_budget { data := [9] } (fun _ => Attempt.exn) 3
    (String.toList "u") (by norm_num)
  exact ⟨h.1, h.2.1 (fun i _ => rfl)⟩

/-- Claim C1 (code-bug evidence): in a two-tile request where the fetch of
tile `(0, 0)` succeeds and the fetch of tile `(0, 1)` fails with the
`ValueError` that `_get_tile` raises for a 404/empty body, the fan-in loop
of `getAerialImage` re-raises that error from `future.result()` — there is
no handler — so the whole request aborts and no image is returned, despite
the sibling tile's success. -/
theorem C1_single_failure_aborts_request :
    compositeLoop (tilesProduct 0 1 0 2)
      [(Except.ok { data := [7] }, 0),
       (Except.error (TileError.valueError (String.toList "u1")), 1)] none
      = Except.error (TileError.valueError (String.toList "u1")) := rfl

/-- Counterexample to claim C2: when every tile fails, the fan-in loop of
`getAerialImage` raises the first completed fetch's own per-tile
`ValueError` — exactly the same unlabelled error it raises when only one
tile fails and a sibling succeeds — so the all-tiles-failed case is not
signalled by any dedicated `AllTilesFailedError` (no such error exists in
the code). -/
theorem C2_counterexample :
    compositeLoop (tilesProduct 0 1 0 2)
      [(Except.error (TileError.valueError (String.toList "u0")), 0),
       (Except.error (TileError.valueError (String.toList "u1")), 1)] none
      = Except.error (TileError.valueError (String.toList "u0")) ∧
    compositeLoop (tilesProduct 0 1 0 2)
      [(Except.error (TileError.valueError (String.toList "u0")), 0),
       (Except.ok { data := [7] }, 1)] none
      = Except.error (TileError.valueError (String.toList "u0")) := by
  constructor
  · rfl
  · rfl

/-- Claim C2 (amended): when every tile fetch fails, `getAerialImage` does
fail rather than returning a blank image, but the failure is the re-raised
per-tile error of the first completed future (the generic `ValueError` of
a 404/empty tile, or the transport error), not a dedicated
`AllTilesFailedError`. -/
theorem C2_all_fail_raises_first_error (tiles : List (ℤ × ℤ))
    (results : List (Except TileError Image × ℕ)) (canvas : Option Canvas)
    (hne : results ≠ [])
    (hall : ∀ p ∈ results, ∃ e, p.1 = Except.error e) :
    ∃ e, compositeLoop tiles results canvas = Except.error e ∧
      ∃ idx rest, results = (Except.error e, idx) :: rest := by
  match results, hne with
  | (res, idx) :: rest, _ =>
    obtain ⟨e, he⟩ := hall (res, idx) (List.mem_cons_self _ _)
    simp only at he
    subst he
    exact ⟨e, rfl, idx, rest, rfl⟩

/-- Witness for the amended C2: a one-tile request whose only fetch fails
yields the failure of that first future. -/
theorem C2_all_fail_witness :
    ∃ e, compositeLoop []
        [((Except.error (TileError.valueError (String.toList "u")) : Except TileError Image), 0)] none
      = Except.error e ∧
      ∃ idx rest,
        [((Except.error (TileError.valueError (String.toList "u")) : Except TileError Image), 0)]
          = (Except.error e, idx) :: rest :=
  C2_all_fail_raises_first_error [] _ none (by simp)
    (fun p hp => ⟨TileError.valueError (String.toList "u"), by
      rw [List.mem_singleton.mp hp]⟩)

end AerialView
